import Mathlib

/-!
Verification of the state-and-safety orchestration layer of the adk-tutorial
repository ("g safe agents/agent.py", with the city-validation variant of
"c Sequential Multi Agent/agent.py" embedded alongside for comparison).

Strings are modelled as lists of characters (`Str`); Python `str.lower` and
`str.strip` are modelled for the ASCII range used by the repository's data.
The real-time clock of `datetime.datetime.now` is passed in as an opaque
string parameter.  The session state dictionary is modelled as a record of
the three optional keys this layer reads and writes.
-/

namespace AdkAgents

/-- Strings as character lists. -/
abbrev Str := List Char

/-- ASCII model of Python `str.lower` on one character. -/
def charLower (c : Char) : Char :=
  if 65 ≤ c.toNat ∧ c.toNat ≤ 90 then Char.ofNat (c.toNat + 32) else c

/-- ASCII model of Python `str.lower`. -/
def lowerStr (s : Str) : Str := s.map charLower

/-- Whitespace characters removed by Python `str.strip`. -/
def isSpaceChar (c : Char) : Bool :=
  c = ' ' || c = '\t' || c = '\n' || c = '\r' || c = '\x0b' || c = '\x0c'

/-- Model of Python `str.strip`: remove leading and trailing whitespace. -/
def stripStr (s : Str) : Str :=
  ((s.dropWhile isSpaceChar).reverse.dropWhile isSpaceChar).reverse

/-- Word characters of the regex class `\w` (ASCII). -/
def isWordChar (c : Char) : Bool := c.isAlpha || c.isDigit || c = '_'

/-- Word-boundary condition to the left of a match; `prev` is the character
just before the match position, `none` at the start of the string. -/
def wordBoundaryBefore : Option Char → Bool
  | none => true
  | some c => !(isWordChar c)

/-- Word-boundary condition to the right of a match, given the rest of the
string after the matched term. -/
def wordBoundaryAfter : Str → Bool
  | [] => true
  | c :: _ => !(isWordChar c)

/-- Scan of `re.search` for the pattern `\b term \b`, for a term made of word
characters: look for an occurrence of `t` whose left and right neighbours are
word boundaries.  `prev` is the character preceding the current position. -/
def wholeWordFrom (t : Str) (prev : Option Char) : Str → Bool
  | [] => t.isEmpty && wordBoundaryBefore prev
  | c :: rest =>
    (t.isPrefixOf (c :: rest) && wordBoundaryBefore prev
      && wordBoundaryAfter ((c :: rest).drop t.length))
    || wholeWordFrom t (some c) rest

/-- Whole-word (word-boundary) containment: `re.search(r'\b'+t+r'\b', s)`. -/
def containsWholeWord (s t : Str) : Bool := wholeWordFrom t none s

/-- Model of Python `" ".join`. -/
def joinWithSpace : List Str → Str
  | [] => []
  | [x] => x
  | x :: y :: rest => x ++ (' ' :: joinWithSpace (y :: rest))

/-- Association-list lookup modelling Python dict indexing (keys unique). -/
def lookupTable {α : Type} : List (Str × α) → Str → Option α
  | [], _ => none
  | (k, v) :: rest, key => if k = key then some v else lookupTable rest key

/-- Entry of the weather database. -/
structure WeatherEntry where
  condition : Str
  temperature_celsius : Int
  temperature_fahrenheit : Int
deriving DecidableEq

/-- Weather database from the source (`WEATHER_DATABASE`). -/
def WEATHER_DATABASE : List (Str × WeatherEntry) :=
  [(("new york").data, { condition := ("sunny").data, temperature_celsius := 25, temperature_fahrenheit := 77 }),
   (("london").data, { condition := ("rainy").data, temperature_celsius := 18, temperature_fahrenheit := 64 }),
   (("tokyo").data, { condition := ("cloudy").data, temperature_celsius := 22, temperature_fahrenheit := 72 }),
   (("sydney").data, { condition := ("partly cloudy").data, temperature_celsius := 27, temperature_fahrenheit := 81 })]

/-- Timezone database from the source (`TIMEZONE_DATABASE`). -/
def TIMEZONE_DATABASE : List (Str × Str) :=
  [(("new york").data, ("America/New_York").data),
   (("london").data, ("Europe/London").data),
   (("tokyo").data, ("Asia/Tokyo").data),
   (("sydney").data, ("Australia/Sydney").data),
   (("paris").data, ("Europe/Paris").data),
   (("berlin").data, ("Europe/Berlin").data),
   (("mumbai").data, ("Asia/Kolkata").data),
   (("los angeles").data, ("America/Los_Angeles").data)]

/-- City corrections database from the source (`CITY_CORRECTIONS`). -/
def CITY_CORRECTIONS : List (Str × Str) :=
  [(("nyc").data, ("new york").data),
   (("ny").data, ("new york").data),
   (("la").data, ("los angeles").data),
   (("sf").data, ("san francisco").data),
   (("tokyo").data, ("tokyo").data),
   (("sidney").data, ("sydney").data),
   (("sydny").data, ("sydney").data),
   (("londan").data, ("london").data),
   (("londun").data, ("london").data),
   (("tokio").data, ("tokyo").data),
   (("new yrok").data, ("new york").data),
   (("new yok").data, ("new york").data),
   (("paaris").data, ("paris").data),
   (("pari").data, ("paris").data),
   (("berln").data, ("berlin").data),
   (("barlin").data, ("berlin").data)]

/-- Blocked terms for safety checks (`BLOCKED_TERMS`). -/
def BLOCKED_TERMS : List Str :=
  [("bomb").data, ("terrorist").data, ("hack").data, ("steal").data,
   ("murder").data, ("kill").data, ("illegal").data, ("fraud").data,
   ("abuse").data, ("harmful").data, ("violent").data, ("weapon").data,
   ("explicit").data, ("offensive").data, ("gambling").data, ("suicide").data]

/-- The `safety_metrics` record kept in session state. -/
structure SafetyMetrics where
  blocked_attempts : Nat
  last_blocked_time : Option Str
  blocked_terms_detected : List Str
deriving DecidableEq

/-- Session state restricted to the keys this layer touches; `none` models a
key absent from the underlying dict. -/
structure SessionState where
  temperature_unit : Option Str
  city_history : Option (List Str)
  safety_metrics : Option SafetyMetrics
deriving DecidableEq

/-- Default value installed for `safety_metrics`. -/
def initialSafetyMetrics : SafetyMetrics :=
  { blocked_attempts := 0, last_blocked_time := none, blocked_terms_detected := [] }

/-- Default-on-absence access: the pattern `if key not in state:
state[key] = default` followed by a read of `state[key]`.  Returns the value
read and the value now stored under the key. -/
def getOrInit {α : Type} (cur : Option α) (default : α) : α × Option α :=
  match cur with
  | some v => (v, some v)
  | none => (default, some default)

/-- State initialization callback `before_agent`: installs defaults for the
three keys when absent, never touching a present value. -/
def before_agent (s : SessionState) : SessionState :=
  { temperature_unit := (getOrInit s.temperature_unit (("celsius").data)).2,
    city_history := (getOrInit s.city_history []).2,
    safety_metrics := (getOrInit s.safety_metrics initialSafetyMetrics).2 }

/-- Core list step of `update_city_history`, applied to the existing history
and the already-normalized city: skip if equal to the most recent entry,
otherwise append and keep only the most recent 5 (`history[-5:]`). -/
def pushHistory (hist : List Str) (c : Str) : List Str :=
  if hist.getLast? = some c then hist
  else
    if 5 < (hist ++ [c]).length then (hist ++ [c]).drop ((hist ++ [c]).length - 5)
    else hist ++ [c]

/-- Helper `update_city_history`: ensures the key exists, normalizes the city
with `.lower().strip()`, and applies the dedupe-and-cap append. -/
def update_city_history (city : Str) (s : SessionState) : SessionState :=
  { s with city_history := some (pushHistory (s.city_history.getD []) (stripStr (lowerStr city))) }

/-- Result dictionary of `validate_city_name`: success carries
`corrected_city` and optionally `original_city`; error carries
`error_message`. -/
inductive ValidateResult where
  | ok (corrected_city : Str) (original_city : Option Str)
  | err (error_message : Str)
deriving DecidableEq

/-- ASCII apostrophe, used inside the formatted messages. -/
def apostropheChar : Char := Char.ofNat 39

/-- Error message of `validate_city_name` for an unrecognized city
(`f"I couldn't recognize '{city}'. ..."`). -/
def unrecognizedMsg (city : Str) : Str :=
  ("I couldn").data ++ [apostropheChar] ++ ("t recognize ").data ++ [apostropheChar] ++
    city ++ [apostropheChar] ++ (". Please provide a valid city name.").data

/-- Tool `validate_city_name` of the safe-agents variant: resolves a city
against the fact tables and the correction table, updating the history on
success. -/
def validate_city_name (city : Str) (s : SessionState) : ValidateResult × SessionState :=
  if city = [] then (ValidateResult.err (("Please provide a valid city name.").data), s)
  else
    if (lookupTable WEATHER_DATABASE (stripStr (lowerStr city))).isSome
        || (lookupTable TIMEZONE_DATABASE (stripStr (lowerStr city))).isSome then
      (ValidateResult.ok (stripStr (lowerStr city)) none,
        update_city_history (stripStr (lowerStr city)) s)
    else
      match lookupTable CITY_CORRECTIONS (stripStr (lowerStr city)) with
      | some corrected =>
        (ValidateResult.ok corrected (some city), update_city_history corrected s)
      | none => (ValidateResult.err (unrecognizedMsg city), s)

/-- Tool `validate_city_name` of the sequential-multi-agent variant: stateless,
and on a directly-valid city returns the ORIGINAL input string as
`corrected_city` (not the lowercased form). -/
def validate_city_name_seq (city : Str) : ValidateResult :=
  if city = [] then ValidateResult.err (("Please provide a valid city name.").data)
  else
    if (lookupTable WEATHER_DATABASE (stripStr (lowerStr city))).isSome
        || (lookupTable TIMEZONE_DATABASE (stripStr (lowerStr city))).isSome then
      ValidateResult.ok city none
    else
      match lookupTable CITY_CORRECTIONS (stripStr (lowerStr city)) with
      | some corrected => ValidateResult.ok corrected (some city)
      | none => ValidateResult.err (unrecognizedMsg city)

/-- Result dictionary of the report-producing tools. -/
inductive ToolResult where
  | ok (report : Str)
  | err (error_message : Str)
deriving DecidableEq

/-- Decimal digits of a natural number. -/
def natToStr (n : Nat) : Str := Nat.toDigits 10 n

/-- Decimal rendering of an integer (Python `f"{n}"`). -/
def intToStr (i : Int) : Str :=
  if i < 0 then '-' :: natToStr i.natAbs else natToStr i.natAbs

/-- Tool `get_weather`: lowercases (without stripping) the city, always
updates the history, then looks up the weather table and formats the
temperature in the preferred unit. -/
def get_weather (city : Str) (s : SessionState) : ToolResult × SessionState :=
  match lookupTable WEATHER_DATABASE (lowerStr city) with
  | some weather =>
    (ToolResult.ok
      (("The weather in ").data ++ city ++ (" is ").data ++ weather.condition ++
        (" with a temperature of ").data ++
        (if lowerStr (s.temperature_unit.getD (("celsius").data)) = ("fahrenheit").data then
          intToStr weather.temperature_fahrenheit ++ (" degrees Fahrenheit").data
        else
          intToStr weather.temperature_celsius ++ (" degrees Celsius").data) ++
        (".").data),
      update_city_history (lowerStr city) s)
  | none =>
    (ToolResult.err
      (("Weather information for ").data ++ [apostropheChar] ++ city ++ [apostropheChar] ++
        (" is not available.").data),
      update_city_history (lowerStr city) s)

/-- Tool `get_current_time`: lowercases (without stripping) the city, always
updates the history, then looks up the timezone table.  The formatted
wall-clock time depends on the real clock and is passed in as `now_str`. -/
def get_current_time (city : Str) (now_str : Str) (s : SessionState) : ToolResult × SessionState :=
  match lookupTable TIMEZONE_DATABASE (lowerStr city) with
  | some _tz =>
    (ToolResult.ok (("The current time in ").data ++ city ++ (" is ").data ++ now_str),
      update_city_history (lowerStr city) s)
  | none =>
    (ToolResult.err
      (("Sorry, I don").data ++ [apostropheChar] ++
        ("t have timezone information for ").data ++ city ++ (".").data),
      update_city_history (lowerStr city) s)

/-- Confirmation message of `update_temperature_preference`. -/
def prefConfirmMsg (unitNorm : Str) : Str :=
  ("Your temperature unit preference has been updated to ").data ++ unitNorm ++ (".").data

/-- Error message of `update_temperature_preference`. -/
def invalidUnitMsg : Str :=
  ("Invalid temperature unit. Please choose ").data ++ [apostropheChar] ++ ("celsius").data ++
    [apostropheChar] ++ (" or ").data ++ [apostropheChar] ++ ("fahrenheit").data ++
    [apostropheChar] ++ (".").data

/-- Tool `update_temperature_preference`: normalizes with `.lower().strip()`,
rejects anything but "celsius"/"fahrenheit", otherwise stores the unit. -/
def update_temperature_preference (unit : Str) (s : SessionState) : ToolResult × SessionState :=
  if stripStr (lowerStr unit) = ("celsius").data ∨ stripStr (lowerStr unit) = ("fahrenheit").data then
    (ToolResult.ok (prefConfirmMsg (stripStr (lowerStr unit))),
      { s with temperature_unit := some (stripStr (lowerStr unit)) })
  else (ToolResult.err invalidUnitMsg, s)

/-- Callback `rate_limit_callback`: rewrites every empty text part to a single
space. -/
def rate_limit_callback (contents : List (List Str)) : List (List Str) :=
  contents.map (fun parts => parts.map (fun t => if t = [] then [' '] else t))

/-- Texts gathered by `safety_check`: every non-empty part text, lowercased, in
order. -/
def input_texts (contents : List (List Str)) : List Str :=
  (contents.map (fun parts => (parts.filter (fun t => t ≠ [])).map lowerStr)).flatten

/-- The `" ".join(input_texts)` of `safety_check`. -/
def combined_input (contents : List (List Str)) : Str :=
  joinWithSpace (input_texts contents)

/-- Blocked terms whose whole-word pattern matches the combined input, in the
order of `BLOCKED_TERMS`. -/
def detected_terms (contents : List (List Str)) : List Str :=
  BLOCKED_TERMS.filter (fun term => containsWholeWord (combined_input contents) term)

/-- The fixed refusal prompt substituted by `safety_check`. -/
def safety_prompt : Str :=
  ("The user").data ++ [apostropheChar] ++
    ("s query contained potentially harmful content that I cannot respond to. Please provide a polite response explaining that you cannot assist with harmful, illegal, unethical, or dangerous requests. Offer to help with weather and time-related queries instead.").data

/-- Metrics update performed by a blocking `safety_check`: increment
`blocked_attempts`, set `last_blocked_time`, extend `blocked_terms_detected`
with the detected terms. -/
def metricsAfterBlock (m : SafetyMetrics) (now_str : Str) (detected : List Str) : SafetyMetrics :=
  { blocked_attempts := m.blocked_attempts + 1,
    last_blocked_time := some now_str,
    blocked_terms_detected := m.blocked_terms_detected ++ detected }

/-- Callback `safety_check`: on a detection, updates the safety metrics,
discards the pending contents and substitutes the refusal prompt; otherwise
applies the empty-part normalization of `rate_limit_callback`.  `now_str`
stands for `datetime.datetime.now().isoformat()`. -/
def safety_check (contents : List (List Str)) (now_str : Str) (s : SessionState) :
    List (List Str) × SessionState :=
  if detected_terms contents ≠ [] then
    let newMetrics : SafetyMetrics :=
      metricsAfterBlock (s.safety_metrics.getD initialSafetyMetrics) now_str
        (detected_terms contents)
    ([[safety_prompt]], { s with safety_metrics := some newMetrics })
  else (rate_limit_callback contents, s)

/-- Normalized history entry: lowercase with no leading or trailing
whitespace. -/
def isNormalized (e : Str) : Prop := lowerStr e = e ∧ stripStr e = e

theorem toNat_ofNat_valid (n : Nat) (h : n.isValidChar) : (Char.ofNat n).toNat = n := by
  simp [Char.ofNat, h, Char.toNat, Char.ofNatAux, UInt32.toNat, BitVec.toNat_ofNatLt]

theorem charLower_idem (c : Char) : charLower (charLower c) = charLower c := by
  unfold charLower
  by_cases h : 65 ≤ c.toNat ∧ c.toNat ≤ 90
  · rw [if_pos h]
    have h2 : (Char.ofNat (c.toNat + 32)).toNat = c.toNat + 32 :=
      toNat_ofNat_valid _ (Or.inl (by omega))
    rw [if_neg (by rw [h2]; omega)]
  · rw [if_neg h, if_neg h]

theorem mem_lowerStr_fixed {s : Str} {c : Char} (h : c ∈ lowerStr s) : charLower c = c := by
  unfold lowerStr at h
  rcases List.mem_map.mp h with ⟨a, _, rfl⟩
  exact charLower_idem a

theorem lowerStr_of_forall_fixed {s : Str} (h : ∀ c ∈ s, charLower c = c) : lowerStr s = s := by
  unfold lowerStr
  rw [List.map_congr_left h]
  simp

theorem mem_stripStr {s : Str} {c : Char} (h : c ∈ stripStr s) : c ∈ s := by
  unfold stripStr at h
  have h1 := List.mem_reverse.mp h
  have h2 := (List.dropWhile_sublist _).mem h1
  have h3 := List.mem_reverse.mp h2
  exact (List.dropWhile_sublist _).mem h3

theorem lowerStr_stripStr_lowerStr (s : Str) :
    lowerStr (stripStr (lowerStr s)) = stripStr (lowerStr s) :=
  lowerStr_of_forall_fixed (fun _ hc => mem_lowerStr_fixed (mem_stripStr hc))

theorem dropWhile_dropWhile (p : Char → Bool) (l : Str) :
    (l.dropWhile p).dropWhile p = l.dropWhile p := by
  induction l with
  | nil => rfl
  | cons a t ih => cases h : p a <;> simp [List.dropWhile_cons, h, ih]

theorem head_not_of_dropWhile_self {p : Char → Bool} {l : Str} (hl : l.dropWhile p = l) :
    ∀ c, l.head? = some c → p c = false := by
  intro c hc
  cases l with
  | nil => cases hc
  | cons a t =>
    have hac : a = c := by simpa using hc
    subst hac
    cases h : p a
    · rfl
    · exfalso
      rw [List.dropWhile_cons, if_pos h] at hl
      have h2 : (t.dropWhile p).length ≤ t.length := (List.dropWhile_sublist _).length_le
      rw [hl] at h2
      simp at h2

theorem dropWhile_eq_self_of_prefix {p : Char → Bool} {l t : Str} (hl : l.dropWhile p = l)
    (hpre : ∃ r, l = t ++ r) : t.dropWhile p = t := by
  rcases hpre with ⟨r, rfl⟩
  cases t with
  | nil => rfl
  | cons a u =>
    have ha : p a = false := head_not_of_dropWhile_self hl a rfl
    simp [List.dropWhile_cons, ha]

theorem stripStr_idem (l : Str) : stripStr (stripStr l) = stripStr l := by
  unfold stripStr
  have hd1self : (l.dropWhile isSpaceChar).dropWhile isSpaceChar = l.dropWhile isSpaceChar :=
    dropWhile_dropWhile isSpaceChar l
  have hrself :
      ((l.dropWhile isSpaceChar).reverse.dropWhile isSpaceChar).dropWhile isSpaceChar =
        (l.dropWhile isSpaceChar).reverse.dropWhile isSpaceChar :=
    dropWhile_dropWhile isSpaceChar (l.dropWhile isSpaceChar).reverse
  have hpre : ∃ r, l.dropWhile isSpaceChar =
      ((l.dropWhile isSpaceChar).reverse.dropWhile isSpaceChar).reverse ++ r := by
    refine ⟨((l.dropWhile isSpaceChar).reverse.takeWhile isSpaceChar).reverse, ?_⟩
    have ht := List.takeWhile_append_dropWhile isSpaceChar (l.dropWhile isSpaceChar).reverse
    calc l.dropWhile isSpaceChar = (l.dropWhile isSpaceChar).reverse.reverse := by
          rw [List.reverse_reverse]
    _ = ((l.dropWhile isSpaceChar).reverse.takeWhile isSpaceChar ++
          (l.dropWhile isSpaceChar).reverse.dropWhile isSpaceChar).reverse := by rw [ht]
    _ = ((l.dropWhile isSpaceChar).reverse.dropWhile isSpaceChar).reverse ++
          ((l.dropWhile isSpaceChar).reverse.takeWhile isSpaceChar).reverse := by
          rw [List.reverse_append]
  have h1 : (((l.dropWhile isSpaceChar).reverse.dropWhile isSpaceChar).reverse).dropWhile
      isSpaceChar = ((l.dropWhile isSpaceChar).reverse.dropWhile isSpaceChar).reverse :=
    dropWhile_eq_self_of_prefix hd1self hpre
  rw [h1, List.reverse_reverse, hrself]

theorem isNormalized_strip_lower (x : Str) : isNormalized (stripStr (lowerStr x)) :=
  ⟨lowerStr_stripStr_lowerStr x, stripStr_idem (lowerStr x)⟩

theorem pushHistory_getLast (hist : List Str) (c : Str) :
    (pushHistory hist c).getLast? = some c := by
  unfold pushHistory
  by_cases h : hist.getLast? = some c
  · rw [if_pos h]
    exact h
  · rw [if_neg h]
    by_cases h5 : 5 < (hist ++ [c]).length
    · rw [if_pos h5, List.getLast?_drop, if_neg (by omega)]
      exact List.getLast?_concat _
    · rw [if_neg h5]
      exact List.getLast?_concat _

theorem pushHistory_length_le (hist : List Str) (c : Str) (h : hist.length ≤ 5) :
    (pushHistory hist c).length ≤ 5 := by
  unfold pushHistory
  by_cases hd : hist.getLast? = some c
  · rw [if_pos hd]
    exact h
  · rw [if_neg hd]
    by_cases h5 : 5 < (hist ++ [c]).length
    · rw [if_pos h5, List.length_drop]
      omega
    · rw [if_neg h5]
      omega

theorem pushHistory_length_eq (hist : List Str) (c : Str) (h : hist.getLast? ≠ some c) :
    (pushHistory hist c).length = min (hist.length + 1) 5 := by
  unfold pushHistory
  rw [if_neg h]
  by_cases h5 : 5 < (hist ++ [c]).length
  · rw [if_pos h5, List.length_drop]
    simp only [List.length_append, List.length_cons, List.length_nil] at h5 ⊢
    omega
  · rw [if_neg h5]
    simp only [List.length_append, List.length_cons, List.length_nil] at h5 ⊢
    omega

theorem pushHistory_drop_form (hist : List Str) (c : Str) (h : hist.getLast? ≠ some c) :
    ∃ k, pushHistory hist c = (hist ++ [c]).drop k ∧
      k + (pushHistory hist c).length = hist.length + 1 := by
  unfold pushHistory
  rw [if_neg h]
  by_cases h5 : 5 < (hist ++ [c]).length
  · rw [if_pos h5]
    refine ⟨(hist ++ [c]).length - 5, rfl, ?_⟩
    rw [List.length_drop]
    simp only [List.length_append, List.length_cons, List.length_nil] at h5 ⊢
    omega
  · rw [if_neg h5]
    refine ⟨0, (List.drop_zero _).symm, ?_⟩
    simp

theorem pushHistory_of_getLast (hist : List Str) (c : Str) (h : hist.getLast? = some c) :
    pushHistory hist c = hist := by
  unfold pushHistory
  rw [if_pos h]

theorem pushHistory_evict (hist : List Str) (c : Str) (h5 : hist.length = 5)
    (h : hist.getLast? ≠ some c) : pushHistory hist c = hist.tail ++ [c] := by
  unfold pushHistory
  rw [if_neg h]
  have hlen : (hist ++ [c]).length = 6 := by simp [h5]
  rw [if_pos (by omega), hlen]
  norm_num
  exact List.tail_append_of_ne_nil (by intro hn; rw [hn] at h5; cases h5)

theorem mem_pushHistory {hist : List Str} {c e : Str} (h : e ∈ pushHistory hist c) :
    e ∈ hist ∨ e = c := by
  unfold pushHistory at h
  by_cases hd : hist.getLast? = some c
  · rw [if_pos hd] at h
    exact Or.inl h
  · rw [if_neg hd] at h
    by_cases h5 : 5 < (hist ++ [c]).length
    · rw [if_pos h5] at h
      have hm := (List.drop_sublist _ _).mem h
      rcases List.mem_append.mp hm with h1 | h1
      · exact Or.inl h1
      · right
        simpa using h1
    · rw [if_neg h5] at h
      rcases List.mem_append.mp h with h1 | h1
      · exact Or.inl h1
      · right
        simpa using h1

theorem pushHistory_readd {hist : List Str} {c d : Str} (hcd : c ≠ d) :
    ∃ pre, pushHistory (pushHistory (pushHistory hist c) d) c = pre ++ [c, d, c] := by
  set l1 := pushHistory hist c with hl1def
  set l2 := pushHistory l1 d with hl2def
  have hl1 : l1.getLast? = some c := pushHistory_getLast hist c
  rcases List.getLast?_eq_some_iff.mp hl1 with ⟨p1, hp1⟩
  have hne1 : l1.getLast? ≠ some d := by
    rw [hl1]
    intro hcon
    exact hcd (Option.some.inj hcon)
  rcases pushHistory_drop_form l1 d hne1 with ⟨k2, hk2, hk2len⟩
  rw [← hl2def] at hk2 hk2len
  have hl2len : l2.length = min (l1.length + 1) 5 := pushHistory_length_eq l1 d hne1
  have hl1ge : 1 ≤ l1.length := by
    rw [hp1]
    simp
  have hl2ge : 2 ≤ l2.length := by omega
  have hp1len : l1.length = p1.length + 1 := by
    rw [hp1]
    simp
  have hk2le : k2 ≤ p1.length := by omega
  have hl2eq : l2 = p1.drop k2 ++ [c, d] := by
    rw [hk2, hp1, List.append_assoc]
    exact List.drop_append_of_le_length hk2le
  have hl2last : l2.getLast? = some d := pushHistory_getLast l1 d
  have hne2 : l2.getLast? ≠ some c := by
    rw [hl2last]
    intro hcon
    exact hcd ((Option.some.inj hcon).symm)
  rcases pushHistory_drop_form l2 c hne2 with ⟨k3, hk3, hk3len⟩
  have hl3len : (pushHistory l2 c).length = min (l2.length + 1) 5 :=
    pushHistory_length_eq l2 c hne2
  have hl2eqlen : l2.length = (p1.drop k2).length + 2 := by
    rw [hl2eq]
    simp
  have hk3le : k3 ≤ (p1.drop k2).length := by omega
  refine ⟨(p1.drop k2).drop k3, ?_⟩
  rw [hk3, hl2eq, List.append_assoc]
  exact List.drop_append_of_le_length hk3le

theorem rate_limit_id {contents : List (List Str)}
    (h : ∀ parts ∈ contents, ∀ t ∈ parts, t ≠ []) :
    rate_limit_callback contents = contents := by
  unfold rate_limit_callback
  have h2 : ∀ parts ∈ contents,
      (parts.map fun t => if t = [] then [' '] else t) = parts := by
    intro parts hp
    have h3 : ∀ t ∈ parts, (if t = [] then [' '] else t) = t :=
      fun t ht => if_neg (h parts hp t ht)
    rw [List.map_congr_left h3]
    simp
  rw [List.map_congr_left h2]
  simp

theorem detected_terms_ne_nil_iff (contents : List (List Str)) :
    detected_terms contents ≠ [] ↔
      ∃ term ∈ BLOCKED_TERMS, containsWholeWord (combined_input contents) term = true := by
  unfold detected_terms
  rw [Ne, List.filter_eq_nil_iff]
  push_neg
  simp

theorem update_city_history_normalized {s : SessionState} {city : Str}
    (h : ∀ e ∈ s.city_history.getD [], isNormalized e) :
    ∀ e ∈ (update_city_history city s).city_history.getD [], isNormalized e := by
  intro e he
  simp only [update_city_history, Option.getD_some] at he
  rcases mem_pushHistory he with h1 | rfl
  · exact h e h1
  · exact isNormalized_strip_lower city

/-- C1: a pending input whose lowercased concatenated text contains a blocked
term as a whole word is intercepted by `safety_check`: `blocked_attempts`
rises by exactly 1, `last_blocked_time` is set, every matched term is
appended to `blocked_terms_detected`, the original contents are discarded and
replaced with the fixed refusal prompt, and the rest of the session state is
untouched; when no whole-word match exists (in particular when a blocked term
occurs only as a substring of a longer word, as in "bombastic") the input and
the state pass through unchanged (given no empty fragment). -/
theorem safety_gate_interception :
    (∀ (contents : List (List Str)) (now_str : Str) (s : SessionState),
        detected_terms contents ≠ [] →
          (safety_check contents now_str s).1 = [[safety_prompt]]
        ∧ (safety_check contents now_str s).2.safety_metrics =
            some (metricsAfterBlock (s.safety_metrics.getD initialSafetyMetrics) now_str
              (detected_terms contents))
        ∧ (safety_check contents now_str s).2.temperature_unit = s.temperature_unit
        ∧ (safety_check contents now_str s).2.city_history = s.city_history)
  ∧ (∀ (contents : List (List Str)) (now_str : Str) (s : SessionState),
        detected_terms contents = [] →
        (∀ parts ∈ contents, ∀ t ∈ parts, t ≠ []) →
        safety_check contents now_str s = (contents, s))
  ∧ (∀ (contents : List (List Str)) (now_str : Str) (s : SessionState),
        detected_terms contents = [] →
          (safety_check contents now_str s).1 = rate_limit_callback contents
        ∧ (safety_check contents now_str s).2 = s)
  ∧ (∀ contents : List (List Str),
        detected_terms contents ≠ [] ↔
          ∃ term ∈ BLOCKED_TERMS, containsWholeWord (combined_input contents) term = true)
  ∧ containsWholeWord (("bombastic").data) (("bomb").data) = false
  ∧ containsWholeWord (("build a bomb").data) (("bomb").data) = true := by
  refine ⟨?_, ?_, ?_, detected_terms_ne_nil_iff, by decide, by decide⟩
  · intro contents now_str s h
    simp only [safety_check, if_pos h]
    simp
  · intro contents now_str s h hne
    simp only [safety_check, h]
    rw [if_neg (fun hh => hh rfl), rate_limit_id hne]
  · intro contents now_str s h
    simp only [safety_check, h]
    rw [if_neg (fun hh => hh rfl)]
    exact ⟨rfl, rfl⟩

/-- Witness for C1 at concrete inputs: "how to build a bomb" is intercepted,
"bombastic talk" passes through unchanged. -/
theorem safety_gate_interception_witness :
    detected_terms [[("how to build a bomb").data]] ≠ []
  ∧ (safety_check [[("how to build a bomb").data]] (("2024-01-01T00:00:00").data)
      (before_agent ⟨none, none, none⟩)).1 = [[safety_prompt]]
  ∧ detected_terms [[("bombastic talk").data]] = []
  ∧ safety_check [[("bombastic talk").data]] (("2024-01-01T00:00:00").data)
      (before_agent ⟨none, none, none⟩) =
      ([[("bombastic talk").data]], before_agent ⟨none, none, none⟩) :=
  ⟨by decide,
   (safety_gate_interception.1 _ _ _ (by decide)).1,
   by decide,
   safety_gate_interception.2.1 _ _ _ (by decide) (by decide)⟩


/-- C2 counterexample: `get_weather` on the unknown city "atlantis" fails
with a lookup error, yet the session state is NOT left unchanged — the city
history gains the entry "atlantis"; likewise `get_current_time`. -/
theorem failed_lookup_mutates_history :
    (∃ m, (get_weather (("atlantis").data) (before_agent ⟨none, none, none⟩)).1 =
      ToolResult.err m)
  ∧ (get_weather (("atlantis").data) (before_agent ⟨none, none, none⟩)).2.city_history ≠
      (before_agent (⟨none, none, none⟩ : SessionState)).city_history
  ∧ (∃ m, (get_current_time (("atlantis").data) (("t0").data)
      (before_agent ⟨none, none, none⟩)).1 = ToolResult.err m)
  ∧ (get_current_time (("atlantis").data) (("t0").data)
      (before_agent ⟨none, none, none⟩)).2.city_history ≠
      (before_agent (⟨none, none, none⟩ : SessionState)).city_history :=
  ⟨⟨_, rfl⟩, by decide, ⟨_, rfl⟩, by decide⟩

/-- C2 amended: a `get_weather` call on a city absent from the weather table
returns a NotFound error and leaves `temperature_unit` and `safety_metrics`
unchanged, but it still updates `city_history` (the lowercased city is
appended subject to the dedupe-and-cap rule, even though the lookup failed);
likewise a `get_current_time` call that finds no timezone entry. -/
theorem failed_lookup_state_effects :
    ∀ (city now_str : Str) (s : SessionState),
    (lookupTable WEATHER_DATABASE (lowerStr city) = none →
        (∃ m, (get_weather city s).1 = ToolResult.err m)
      ∧ (get_weather city s).2.temperature_unit = s.temperature_unit
      ∧ (get_weather city s).2.safety_metrics = s.safety_metrics
      ∧ (get_weather city s).2.city_history =
          (update_city_history (lowerStr city) s).city_history)
  ∧ (lookupTable TIMEZONE_DATABASE (lowerStr city) = none →
        (∃ m, (get_current_time city now_str s).1 = ToolResult.err m)
      ∧ (get_current_time city now_str s).2.temperature_unit = s.temperature_unit
      ∧ (get_current_time city now_str s).2.safety_metrics = s.safety_metrics
      ∧ (get_current_time city now_str s).2.city_history =
          (update_city_history (lowerStr city) s).city_history) := by
  intro city now_str s
  constructor
  · intro h
    simp only [get_weather, h]
    exact ⟨⟨_, rfl⟩, by trivial, by trivial, by trivial⟩
  · intro h
    simp only [get_current_time, h]
    exact ⟨⟨_, rfl⟩, by trivial, by trivial, by trivial⟩

/-- Witness for C2's amended theorem at the concrete city "atlantis". -/
theorem failed_lookup_state_effects_witness :
    lookupTable WEATHER_DATABASE (lowerStr (("atlantis").data)) = none
  ∧ (get_weather (("atlantis").data) (before_agent ⟨none, none, none⟩)).2.temperature_unit =
      (before_agent (⟨none, none, none⟩ : SessionState)).temperature_unit :=
  ⟨by decide,
   ((failed_lookup_state_effects (("atlantis").data) (("t0").data)
      (before_agent ⟨none, none, none⟩)).1 (by decide)).2.1⟩

/-- C3 counterexample: `validate_city_name` by itself DOES mutate
`city_history` — resolving "sydney" from the empty state appends an entry. -/
theorem resolver_mutates_history :
    (validate_city_name (("sydney").data)
      (⟨none, none, none⟩ : SessionState)).2.city_history ≠
      (⟨none, none, none⟩ : SessionState).city_history := by
  decide

/-- C3 amended: in the safe-agents variant, `validate_city_name` appends the
resolved canonical city to `city_history` on every successful resolution and
leaves the state unchanged only on failure; the fact lookups `get_weather`
and `get_current_time` update `city_history` unconditionally, even when the
lookup fails. -/
theorem resolution_history_effects :
    ∀ (city now_str : Str) (s : SessionState),
    (∀ msg, (validate_city_name city s).1 = ValidateResult.err msg →
        (validate_city_name city s).2 = s)
  ∧ (∀ cc oc, (validate_city_name city s).1 = ValidateResult.ok cc oc →
        (validate_city_name city s).2 = update_city_history cc s)
  ∧ (get_weather city s).2.city_history =
      (update_city_history (lowerStr city) s).city_history
  ∧ (get_current_time city now_str s).2.city_history =
      (update_city_history (lowerStr city) s).city_history := by
  intro city now_str s
  refine ⟨?_, ?_, ?_, ?_⟩
  · intro msg hmsg
    by_cases h0 : city = []
    · simp [validate_city_name, h0]
    · by_cases h1 : ((lookupTable WEATHER_DATABASE (stripStr (lowerStr city))).isSome
          || (lookupTable TIMEZONE_DATABASE (stripStr (lowerStr city))).isSome) = true
      · simp [validate_city_name, h0, h1] at hmsg
      · cases h2 : lookupTable CITY_CORRECTIONS (stripStr (lowerStr city)) with
        | some corrected => simp [validate_city_name, h0, h1, h2] at hmsg
        | none => simp [validate_city_name, h0, h1, h2]
  · intro cc oc hok
    by_cases h0 : city = []
    · simp [validate_city_name, h0] at hok
    · by_cases h1 : ((lookupTable WEATHER_DATABASE (stripStr (lowerStr city))).isSome
          || (lookupTable TIMEZONE_DATABASE (stripStr (lowerStr city))).isSome) = true
      · simp only [validate_city_name, if_neg h0, if_pos h1] at hok ⊢
        rw [(ValidateResult.ok.inj hok).1]
      · cases h2 : lookupTable CITY_CORRECTIONS (stripStr (lowerStr city)) with
        | some corrected =>
          simp only [validate_city_name, if_neg h0, if_neg h1, h2] at hok ⊢
          rw [(ValidateResult.ok.inj hok).1]
        | none => simp [validate_city_name, h0, h1, h2] at hok
  · cases h : lookupTable WEATHER_DATABASE (lowerStr city) <;> simp [get_weather, h]
  · cases h : lookupTable TIMEZONE_DATABASE (lowerStr city) <;> simp [get_current_time, h]

/-- Witness for C3's amended theorem: successful resolution of "sydney"
updates the history, failed resolution of "atlantis" leaves the state
unchanged. -/
theorem resolution_history_effects_witness :
    (validate_city_name (("sydney").data) (⟨none, none, none⟩ : SessionState)).2 =
      update_city_history (("sydney").data) (⟨none, none, none⟩ : SessionState)
  ∧ (validate_city_name (("atlantis").data) (⟨none, none, none⟩ : SessionState)).2 =
      (⟨none, none, none⟩ : SessionState) :=
  ⟨(resolution_history_effects (("sydney").data) (("t").data) ⟨none, none, none⟩).2.1
      (("sydney").data) none (by decide),
   (resolution_history_effects (("atlantis").data) (("t").data) ⟨none, none, none⟩).1
      (unrecognizedMsg (("atlantis").data)) (by decide)⟩

/-- C4: the bounded-ring invariant of `city_history`: an append never grows
the history beyond 5 entries; appending a 6th entry evicts the oldest and
preserves the order of the remaining 5 (most-recent-last); appending a city
equal to the immediately preceding entry adds nothing; appending the same
city again after a different city in between yields a fresh entry, so the
history then ends with [c, d, c]; and `update_city_history` performs exactly
this append on the normalized city. -/
theorem city_history_ring_invariant :
    ∀ (hist : List Str) (c d : Str) (s : SessionState) (city : Str),
    (hist.length ≤ 5 → (pushHistory hist c).length ≤ 5)
  ∧ (hist.length = 5 → hist.getLast? ≠ some c → pushHistory hist c = hist.tail ++ [c])
  ∧ (hist.getLast? = some c → pushHistory hist c = hist)
  ∧ (pushHistory (pushHistory hist c) c = pushHistory hist c)
  ∧ (c ≠ d → ∃ pre, pushHistory (pushHistory (pushHistory hist c) d) c = pre ++ [c, d, c])
  ∧ ((s.city_history.getD []).length ≤ 5 →
      ((update_city_history city s).city_history.getD []).length ≤ 5)
  ∧ (update_city_history city s).city_history =
      some (pushHistory (s.city_history.getD []) (stripStr (lowerStr city))) := by
  intro hist c d s city
  refine ⟨pushHistory_length_le hist c, pushHistory_evict hist c,
    pushHistory_of_getLast hist c,
    pushHistory_of_getLast _ _ (pushHistory_getLast hist c),
    fun hcd => pushHistory_readd hcd, ?_, rfl⟩
  intro h
  simp only [update_city_history, Option.getD_some]
  exact pushHistory_length_le _ _ h

/-- Witness for C4 at a concrete 5-entry history. -/
theorem city_history_ring_invariant_witness :
    pushHistory [("a").data, ("b").data, ("c").data, ("d").data, ("e").data] (("f").data) =
      [("b").data, ("c").data, ("d").data, ("e").data, ("f").data]
  ∧ pushHistory [("a").data] (("a").data) = [("a").data]
  ∧ (∃ pre, pushHistory (pushHistory (pushHistory [] (("x").data)) (("y").data))
      (("x").data) = pre ++ [("x").data, ("y").data, ("x").data]) := by
  refine ⟨?_, ?_, ?_⟩
  · have h := (city_history_ring_invariant
      [("a").data, ("b").data, ("c").data, ("d").data, ("e").data] (("f").data) (("f").data)
      ⟨none, none, none⟩ []).2.1 (by decide) (by decide)
    rw [h]
    decide
  · exact (city_history_ring_invariant [("a").data] (("a").data) (("a").data)
      ⟨none, none, none⟩ []).2.2.1 (by decide)
  · exact (city_history_ring_invariant [] (("x").data) (("y").data)
      ⟨none, none, none⟩ []).2.2.2.2.1 (by decide)

/-- C5 counterexample: the sequential-variant resolver returns the ORIGINAL
casing for a directly-valid city: on "Sydney" it succeeds with
corrected_city "Sydney", not the lowercased "sydney", although the
trimmed-lowercased form is a key of the weather table. -/
theorem seq_resolver_returns_original_casing :
    validate_city_name_seq (("Sydney").data) = ValidateResult.ok (("Sydney").data) none
  ∧ ("Sydney").data ≠ stripStr (lowerStr (("Sydney").data))
  ∧ (lookupTable WEATHER_DATABASE (stripStr (lowerStr (("Sydney").data)))).isSome = true := by
  decide

/-- C5 amended: in the safe-agents variant, `validate_city_name` on a
non-empty city whose trimmed lowercased form is a fact-table key succeeds
with the lowercased form as canonical output; when that form is only a
correction-table key it succeeds with the mapped canonical form together
with the raw input; otherwise it fails with an error carrying the raw input.
The sequential variant behaves the same except that on a directly-valid city
it returns the original casing instead of the lowercased form. -/
theorem resolver_canonicalization :
    ∀ (city : Str) (s : SessionState), city ≠ [] →
    (((lookupTable WEATHER_DATABASE (stripStr (lowerStr city))).isSome
        || (lookupTable TIMEZONE_DATABASE (stripStr (lowerStr city))).isSome) = true →
        (validate_city_name city s).1 = ValidateResult.ok (stripStr (lowerStr city)) none
      ∧ validate_city_name_seq city = ValidateResult.ok city none)
  ∧ (∀ m, lookupTable WEATHER_DATABASE (stripStr (lowerStr city)) = none →
        lookupTable TIMEZONE_DATABASE (stripStr (lowerStr city)) = none →
        lookupTable CITY_CORRECTIONS (stripStr (lowerStr city)) = some m →
        (validate_city_name city s).1 = ValidateResult.ok m (some city)
      ∧ validate_city_name_seq city = ValidateResult.ok m (some city))
  ∧ (lookupTable WEATHER_DATABASE (stripStr (lowerStr city)) = none →
        lookupTable TIMEZONE_DATABASE (stripStr (lowerStr city)) = none →
        lookupTable CITY_CORRECTIONS (stripStr (lowerStr city)) = none →
        (validate_city_name city s).1 = ValidateResult.err (unrecognizedMsg city)
      ∧ validate_city_name_seq city = ValidateResult.err (unrecognizedMsg city)) := by
  intro city s h0
  refine ⟨?_, ?_, ?_⟩
  · intro h1
    constructor
    · simp only [validate_city_name, if_neg h0, if_pos h1]
    · simp only [validate_city_name_seq, if_neg h0, if_pos h1]
  · intro m hw ht hc
    have h1 : ¬ (((lookupTable WEATHER_DATABASE (stripStr (lowerStr city))).isSome
        || (lookupTable TIMEZONE_DATABASE (stripStr (lowerStr city))).isSome) = true) := by
      simp [hw, ht]
    constructor
    · simp only [validate_city_name, if_neg h0, if_neg h1, hc]
    · simp only [validate_city_name_seq, if_neg h0, if_neg h1, hc]
  · intro hw ht hc
    have h1 : ¬ (((lookupTable WEATHER_DATABASE (stripStr (lowerStr city))).isSome
        || (lookupTable TIMEZONE_DATABASE (stripStr (lowerStr city))).isSome) = true) := by
      simp [hw, ht]
    constructor
    · simp only [validate_city_name, if_neg h0, if_neg h1, hc]
    · simp only [validate_city_name_seq, if_neg h0, if_neg h1, hc]

/-- Witness for C5's amended theorem: "Sydney" resolves to lowercase in the
safe-agents variant, "nyc" resolves through the correction table, and
"atlantis" is rejected. -/
theorem resolver_canonicalization_witness :
    (validate_city_name (("Sydney").data) ⟨none, none, none⟩).1 =
      ValidateResult.ok (("sydney").data) none
  ∧ (validate_city_name (("nyc").data) ⟨none, none, none⟩).1 =
      ValidateResult.ok (("new york").data) (some (("nyc").data))
  ∧ (validate_city_name (("atlantis").data) ⟨none, none, none⟩).1 =
      ValidateResult.err (unrecognizedMsg (("atlantis").data)) := by
  refine ⟨?_, ?_, ?_⟩
  · have h := ((resolver_canonicalization (("Sydney").data) ⟨none, none, none⟩
      (by decide)).1 (by decide)).1
    rw [h]
    decide
  · exact ((resolver_canonicalization (("nyc").data) ⟨none, none, none⟩
      (by decide)).2.1 (("new york").data) (by decide) (by decide) (by decide)).1
  · exact ((resolver_canonicalization (("atlantis").data) ⟨none, none, none⟩
      (by decide)).2.2 (by decide) (by decide) (by decide)).1

/-- C6: `update_temperature_preference` normalizes its argument by trimming
and lowercasing, rejects everything except "celsius" and "fahrenheit" with an
InvalidUnit error leaving the state unchanged, and for exactly those two
values stores the normalized unit and confirms it; the check is
case-insensitive ("CELSIUS" succeeds, "kelvin" fails). -/
theorem temperature_preference_contract :
    ∀ (unit : Str) (s : SessionState),
    (stripStr (lowerStr unit) ≠ ("celsius").data → stripStr (lowerStr unit) ≠ ("fahrenheit").data →
        (update_temperature_preference unit s).1 = ToolResult.err invalidUnitMsg
      ∧ (update_temperature_preference unit s).2 = s)
  ∧ (stripStr (lowerStr unit) = ("celsius").data ∨ stripStr (lowerStr unit) = ("fahrenheit").data →
        (update_temperature_preference unit s).1 =
          ToolResult.ok (prefConfirmMsg (stripStr (lowerStr unit)))
      ∧ (update_temperature_preference unit s).2.temperature_unit =
          some (stripStr (lowerStr unit))
      ∧ (update_temperature_preference unit s).2.city_history = s.city_history
      ∧ (update_temperature_preference unit s).2.safety_metrics = s.safety_metrics)
  ∧ ((update_temperature_preference (("CELSIUS").data) s).1 =
        ToolResult.ok (prefConfirmMsg (("celsius").data))
      ∧ (update_temperature_preference (("CELSIUS").data) s).2.temperature_unit =
          some (("celsius").data))
  ∧ ((update_temperature_preference (("kelvin").data) s).1 = ToolResult.err invalidUnitMsg
      ∧ (update_temperature_preference (("kelvin").data) s).2 = s) := by
  intro unit s
  refine ⟨?_, ?_, ?_, ?_⟩
  · intro hc hf
    have hne : ¬ (stripStr (lowerStr unit) = ("celsius").data
        ∨ stripStr (lowerStr unit) = ("fahrenheit").data) := by
      rintro (h | h)
      · exact hc h
      · exact hf h
    simp only [update_temperature_preference, if_neg hne]
    exact ⟨by trivial, by trivial⟩
  · intro h
    simp only [update_temperature_preference, if_pos h]
    exact ⟨by trivial, by trivial, by trivial, by trivial⟩
  · have hn : stripStr (lowerStr (("CELSIUS").data)) = ("celsius").data := by decide
    have hcond : stripStr (lowerStr (("CELSIUS").data)) = ("celsius").data
        ∨ stripStr (lowerStr (("CELSIUS").data)) = ("fahrenheit").data := Or.inl hn
    simp only [update_temperature_preference, if_pos hcond, hn]
    exact ⟨by trivial, by trivial⟩
  · have hcond : ¬ (stripStr (lowerStr (("kelvin").data)) = ("celsius").data
        ∨ stripStr (lowerStr (("kelvin").data)) = ("fahrenheit").data) := by decide
    simp only [update_temperature_preference, if_neg hcond]
    exact ⟨by trivial, by trivial⟩

/-- Witness for C6 at the concrete inputs " Fahrenheit " and "kelvin". -/
theorem temperature_preference_contract_witness :
    (update_temperature_preference ((" Fahrenheit ").data) ⟨none, none, none⟩).2.temperature_unit =
      some (("fahrenheit").data)
  ∧ (update_temperature_preference (("kelvin").data) ⟨none, none, none⟩).2 =
      (⟨none, none, none⟩ : SessionState) := by
  constructor
  · have h := ((temperature_preference_contract ((" Fahrenheit ").data)
      ⟨none, none, none⟩).2.1 (Or.inr (by decide))).2.1
    rw [h]
    decide
  · exact ((temperature_preference_contract (("kelvin").data) ⟨none, none, none⟩).1
      (by decide) (by decide)).2

/-- C7: for every canonical city of the weather table, `get_weather` succeeds
and the temperature in the report is exactly the precomputed stored field for
the unit preference in session state — the Fahrenheit field when
`temperature_unit` is "fahrenheit", the Celsius field when it is "celsius" or
absent (default) — with no conversion arithmetic. -/
theorem weather_unit_selection :
    ∀ (cw : Str × WeatherEntry) (s : SessionState), cw ∈ WEATHER_DATABASE →
    ((s.temperature_unit = none ∨ s.temperature_unit = some (("celsius").data)) →
        (get_weather cw.1 s).1 = ToolResult.ok
          ((("The weather in ").data ++ cw.1 ++ (" is ").data ++ cw.2.condition ++
            (" with a temperature of ").data ++
            (intToStr cw.2.temperature_celsius ++ (" degrees Celsius").data) ++ (".").data)))
  ∧ (s.temperature_unit = some (("fahrenheit").data) →
        (get_weather cw.1 s).1 = ToolResult.ok
          ((("The weather in ").data ++ cw.1 ++ (" is ").data ++ cw.2.condition ++
            (" with a temperature of ").data ++
            (intToStr cw.2.temperature_fahrenheit ++ (" degrees Fahrenheit").data) ++
            (".").data))) := by
  intro cw s hm
  have hfst : ∀ u : Option Str, s.temperature_unit = u →
      (get_weather cw.1 s).1 = (get_weather cw.1 ⟨u, none, none⟩).1 := by
    intro u hu
    cases hh : lookupTable WEATHER_DATABASE (lowerStr cw.1) <;> simp [get_weather, hh, hu]
  constructor
  · rintro (h | h)
    · rw [hfst none h]
      fin_cases hm <;> decide
    · rw [hfst (some (("celsius").data)) h]
      fin_cases hm <;> decide
  · intro h
    rw [hfst (some (("fahrenheit").data)) h]
    fin_cases hm <;> decide

/-- Witness for C7 at the city "new york" with a stored "fahrenheit"
preference: the report shows the stored 77-degree Fahrenheit field. -/
theorem weather_unit_selection_witness :
    (get_weather (("new york").data)
      (⟨some (("fahrenheit").data), none, none⟩ : SessionState)).1 =
      ToolResult.ok
        ((("The weather in ").data ++ ("new york").data ++ (" is ").data ++ ("sunny").data ++
          (" with a temperature of ").data ++
          (intToStr 77 ++ (" degrees Fahrenheit").data) ++ (".").data)) := by
  have h := weather_unit_selection
    ((("new york").data,
      { condition := ("sunny").data, temperature_celsius := 25, temperature_fahrenheit := 77 }))
    (⟨some (("fahrenheit").data), none, none⟩ : SessionState) (by decide)
  exact h.2 rfl

/-- C8: session-state default initialization is idempotent: a second
`get_or_init` with a different default returns and keeps the value set
first; `before_agent` run twice equals `before_agent` run once, and an
existing value for `temperature_unit`, `city_history` or `safety_metrics`
is never overwritten. -/
theorem state_init_idempotent :
    (∀ (α : Type) (cur : Option α) (d d2 : α),
        getOrInit (getOrInit cur d).2 d2 = ((getOrInit cur d).1, (getOrInit cur d).2))
  ∧ (∀ s : SessionState, before_agent (before_agent s) = before_agent s)
  ∧ (∀ (s : SessionState) (v : Str), s.temperature_unit = some v →
        (before_agent s).temperature_unit = some v)
  ∧ (∀ (s : SessionState) (h : List Str), s.city_history = some h →
        (before_agent s).city_history = some h)
  ∧ (∀ (s : SessionState) (m : SafetyMetrics), s.safety_metrics = some m →
        (before_agent s).safety_metrics = some m) := by
  refine ⟨?_, ?_, ?_, ?_, ?_⟩
  · intro α cur d d2
    cases cur <;> rfl
  · intro s
    rcases s with ⟨tu, ch, sm⟩
    cases tu <;> cases ch <;> cases sm <;> rfl
  · intro s v h
    simp [before_agent, h, getOrInit]
  · intro s hl h
    simp [before_agent, h, getOrInit]
  · intro s m h
    simp [before_agent, h, getOrInit]

/-- Witness for C8: a second init with default "fahrenheit" keeps the
first-set "celsius", and `before_agent` keeps an existing "fahrenheit". -/
theorem state_init_idempotent_witness :
    getOrInit (getOrInit (none : Option Str) (("celsius").data)).2 (("fahrenheit").data) =
      ((("celsius").data), some (("celsius").data))
  ∧ (before_agent
      (⟨some (("fahrenheit").data), none, none⟩ : SessionState)).temperature_unit =
      some (("fahrenheit").data) := by
  constructor
  · rw [state_init_idempotent.1 Str none (("celsius").data) (("fahrenheit").data)]
    decide
  · exact state_init_idempotent.2.2.1 _ _ rfl

/-- C9: every entry stored in `city_history` is normalized (lowercase, no
surrounding whitespace) regardless of the casing or padding of the caller's
city string, because `update_city_history` re-lowercases and strips before
appending; the invariant is preserved by `update_city_history`,
`get_weather`, `get_current_time` and `validate_city_name`. -/
theorem history_entries_normalized :
    ∀ (s : SessionState) (city now_str : Str),
    isNormalized (stripStr (lowerStr city))
  ∧ ((∀ e ∈ s.city_history.getD [], isNormalized e) →
      ∀ e ∈ (update_city_history city s).city_history.getD [], isNormalized e)
  ∧ ((∀ e ∈ s.city_history.getD [], isNormalized e) →
      ∀ e ∈ (get_weather city s).2.city_history.getD [], isNormalized e)
  ∧ ((∀ e ∈ s.city_history.getD [], isNormalized e) →
      ∀ e ∈ (get_current_time city now_str s).2.city_history.getD [], isNormalized e)
  ∧ ((∀ e ∈ s.city_history.getD [], isNormalized e) →
      ∀ e ∈ (validate_city_name city s).2.city_history.getD [], isNormalized e) := by
  intro s city now_str
  refine ⟨isNormalized_strip_lower city, update_city_history_normalized, ?_, ?_, ?_⟩
  · intro h
    have h2 : (get_weather city s).2 = update_city_history (lowerStr city) s := by
      cases hh : lookupTable WEATHER_DATABASE (lowerStr city) <;> simp [get_weather, hh]
    rw [h2]
    exact update_city_history_normalized h
  · intro h
    have h2 : (get_current_time city now_str s).2 = update_city_history (lowerStr city) s := by
      cases hh : lookupTable TIMEZONE_DATABASE (lowerStr city) <;> simp [get_current_time, hh]
    rw [h2]
    exact update_city_history_normalized h
  · intro h
    by_cases h0 : city = []
    · simpa [validate_city_name, h0] using h
    · by_cases h1 : ((lookupTable WEATHER_DATABASE (stripStr (lowerStr city))).isSome
          || (lookupTable TIMEZONE_DATABASE (stripStr (lowerStr city))).isSome) = true
      · simp only [validate_city_name, if_neg h0, if_pos h1]
        exact update_city_history_normalized h
      · cases h2 : lookupTable CITY_CORRECTIONS (stripStr (lowerStr city)) with
        | some corrected =>
          simp only [validate_city_name, if_neg h0, if_neg h1, h2]
          exact update_city_history_normalized h
        | none =>
          simp only [validate_city_name, if_neg h0, if_neg h1, h2]
          exact h

/-- Witness for C9: the padded mixed-case input " SyDNey " is stored
normalized. -/
theorem history_entries_normalized_witness :
    isNormalized (stripStr (lowerStr ((" SyDNey ").data)))
  ∧ ∀ e ∈ (update_city_history ((" SyDNey ").data)
      (⟨none, none, none⟩ : SessionState)).city_history.getD [], isNormalized e :=
  ⟨(history_entries_normalized ⟨none, none, none⟩ ((" SyDNey ").data) (("t").data)).1,
   (history_entries_normalized ⟨none, none, none⟩ ((" SyDNey ").data) (("t").data)).2.1
     (fun e he => absurd he (by simp))⟩

/-- C10: `get_weather` and `get_current_time` lowercase but do not trim their
city argument before the table lookup, so the padded input " sydney ", which
the resolver accepts, makes a direct `get_weather` or `get_current_time`
call fail with NotFound. -/
theorem lookup_lowercases_but_does_not_trim :
    (validate_city_name ((" sydney ").data) (before_agent ⟨none, none, none⟩)).1 =
      ValidateResult.ok (("sydney").data) none
  ∧ (∃ m, (get_weather ((" sydney ").data) (before_agent ⟨none, none, none⟩)).1 =
      ToolResult.err m)
  ∧ (∃ m, (get_current_time ((" sydney ").data) (("t0").data)
      (before_agent ⟨none, none, none⟩)).1 = ToolResult.err m)
  ∧ lookupTable WEATHER_DATABASE (lowerStr ((" sydney ").data)) = none
  ∧ lookupTable TIMEZONE_DATABASE (lowerStr ((" sydney ").data)) = none
  ∧ (lookupTable WEATHER_DATABASE (stripStr (lowerStr ((" sydney ").data)))).isSome = true :=
  ⟨by decide, ⟨_, rfl⟩, ⟨_, rfl⟩, by decide, by decide, by decide⟩

end AdkAgents
